import Mathlib

/-!
Verification development for the aws-news-mcp-server repository.

The repository contains two Python files, `aws_news_server.py` and `main.py`,
each holding a copy of the core operation `fetch_aws_news` plus a tool-protocol
front end (`call_tool` in `aws_news_server.py`, `get_aws_news` in `main.py`).
This file embeds that logic shallowly:

* JSON values returned by the upstream service are an inductive `Json`;
  the JSON codec of the standard library is abstracted: an HTTP response body
  either decodes to a `Json` value or fails (`Option Json`).
* The HTTP client (`httpx.AsyncClient.get`) is an oracle `net : String → NetOutcome`
  from the request URL to an outcome (a response with a status code and a body,
  or a network failure).  `fetch_aws_news` returns, next to its result, the list
  of URLs it requested, so "zero network calls" is expressible.
* Python exceptions become an error type `FetchError`; `Except` models
  raise/try-except control flow.
* `datetime.fromisoformat` is modelled by the Bool-valued `fromisoformat`
  (the parsed datetime is discarded by the source, only success/failure
  matters).  The model implements the ISO-8601 subset
  `YYYY-MM-DD[<sep>HH[:MM[:SS[.ffffff]]][±HH[:MM[:SS]]]]` with calendar and
  range validation, matching CPython on every string the claims exercise.
* `urllib.parse.urlencode` is modelled byte-for-byte (UTF-8, `quote_plus`
  escaping with `+` for space and uppercase percent-escapes, values
  stringified with Python `str()` where `True`/`False` capitalisation
  matters).
-/

/-- JSON values, as decoded from an upstream response body. -/
inductive Json where
  | null : Json
  | bool (b : Bool) : Json
  | num (n : Int) : Json
  | str (s : String) : Json
  | arr (elems : List Json) : Json
  | obj (fields : List (String × Json)) : Json

/-- A Python value that can occur in the query-parameter dict of
`fetch_aws_news`: the source stores an `int` (`page_size`), a `bool`
(`hide_regional_expansions`) and strings. -/
inductive PyVal where
  | int (i : Int) : PyVal
  | bool (b : Bool) : PyVal
  | str (s : String) : PyVal
deriving DecidableEq

/-- Python `str()` on the values above; note `str(True) = "True"`. -/
def PyVal.pyStr : PyVal → String
  | .int i => toString i
  | .bool b => if b then "True" else "False"
  | .str s => s

/-- First-match association-list lookup, used to state which query parameter
carries which value in the assembled parameter list. -/
def qlookup (k : String) : List (String × PyVal) → Option PyVal
  | [] => none
  | (k2, v) :: rest => if k = k2 then some v else qlookup k rest

/-- UTF-8 encoding of one character, as a list of byte values. -/
def utf8Bytes (c : Char) : List Nat :=
  let n := c.toNat
  if n < 128 then [n]
  else if n < 2048 then [192 + n / 64, 128 + n % 64]
  else if n < 65536 then [224 + n / 4096, 128 + (n / 64) % 64, 128 + n % 64]
  else [240 + n / 262144, 128 + (n / 4096) % 64, 128 + (n / 64) % 64, 128 + n % 64]

/-- Bytes left unescaped by `urllib.parse.quote_plus`: ASCII letters, digits,
and `_`, `.`, `-`, `~`. -/
def isUrlSafeByte (n : Nat) : Bool :=
  (65 ≤ n && n ≤ 90) || (97 ≤ n && n ≤ 122) || (48 ≤ n && n ≤ 57)
    || n == 95 || n == 46 || n == 45 || n == 126

/-- Uppercase hexadecimal digit, for percent-escapes. -/
def hexUpper (n : Nat) : Char :=
  if n < 10 then Char.ofNat (48 + n) else Char.ofNat (55 + n)

/-- `urllib.parse.quote_plus` on one byte: safe bytes pass through, space
becomes `+`, every other byte becomes `%XX`. -/
def quoteByte (n : Nat) : String :=
  if isUrlSafeByte n then String.mk [Char.ofNat n]
  else if n == 32 then "+"
  else String.mk ['%', hexUpper (n / 16), hexUpper (n % 16)]

/-- Model of `urllib.parse.quote_plus`: UTF-8 encode, then escape each byte. -/
def quote_plus (s : String) : String :=
  String.join (((s.toList.map utf8Bytes).flatten).map quoteByte)

/-- Model of `urllib.parse.urlencode` on an ordered parameter list: each pair
becomes `quote_plus(str(k)) ++ "=" ++ quote_plus(str(v))`, joined by `&`
(keys here are plain identifiers, so quoting a key is the identity). -/
def urlencode (ps : List (String × PyVal)) : String :=
  String.intercalate "&" (ps.map (fun kv => quote_plus kv.1 ++ "=" ++ quote_plus kv.2.pyStr))

/-- Model of Python `str.replace` specialised to a one-character pattern
(the source calls `since_date.replace('Z', '+00:00')`): every occurrence of
the character is substituted. -/
def pyReplaceChar (s : String) (pat : Char) (rep : String) : String :=
  String.mk (s.toList.foldr (fun c acc => if c = pat then rep.toList ++ acc else c :: acc) [])

/-- Python `str.lower`, modelled with ASCII case folding (`A`–`Z` map to
`a`–`z`); the source only compares the lowered string against the ASCII
literals `"news"`, `"blogs"`, `"blog"`. -/
def pyLower (s : String) : String :=
  String.mk (s.toList.map (fun c =>
    if 65 ≤ c.toNat ∧ c.toNat ≤ 90 then Char.ofNat (c.toNat + 32) else c))

/-- ASCII digit test. -/
def isDigit (c : Char) : Bool := 48 ≤ c.toNat && c.toNat ≤ 57

/-- Value of an ASCII digit. -/
def digitVal (c : Char) : Nat := c.toNat - 48

/-- Parse exactly `n` ASCII digits into a number (most significant first),
returning the value and the remaining characters. -/
def parseFixedNat : Nat → Nat → List Char → Option (Nat × List Char)
  | 0, acc, cs => some (acc, cs)
  | n + 1, acc, c :: cs =>
      if isDigit c then parseFixedNat n (acc * 10 + digitVal c) cs else none
  | _ + 1, _, [] => none

/-- Gregorian leap-year rule, as used by Python `datetime`. -/
def isLeapYear (y : Nat) : Bool := (y % 4 == 0 && y % 100 != 0) || y % 400 == 0

/-- Days in a month of a given year. -/
def daysInMonth (y m : Nat) : Nat :=
  if m = 2 then (if isLeapYear y then 29 else 28)
  else if m = 4 ∨ m = 6 ∨ m = 9 ∨ m = 11 then 30
  else 31

/-- Nonempty run of ASCII digits (a fractional-seconds field). -/
def fracOk : List Char → Bool
  | [] => false
  | cs => cs.all isDigit

/-- Remainder of a UTC-offset field after the sign: `HH[:MM[:SS]]` with
hour ≤ 23, minute ≤ 59, second ≤ 59, consuming the whole input. -/
def offsetBody (cs : List Char) : Bool :=
  match parseFixedNat 2 0 cs with
  | none => false
  | some (hh, rest) =>
    if 24 ≤ hh then false else
    match rest with
    | [] => true
    | ':' :: r =>
      match parseFixedNat 2 0 r with
      | none => false
      | some (mm, rest2) =>
        if 60 ≤ mm then false else
        match rest2 with
        | [] => true
        | ':' :: r2 =>
          match parseFixedNat 2 0 r2 with
          | none => false
          | some (ss, rest3) => if 60 ≤ ss then false else rest3.isEmpty
        | _ => false
    | _ => false

/-- Optional trailing UTC offset: empty, or `+`/`-` followed by `offsetBody`. -/
def parseOffset : List Char → Bool
  | [] => true
  | c :: cs => if c = '+' ∨ c = '-' then offsetBody cs else false

/-- Time-of-day part `HH[:MM[:SS[.ffffff]]]` (hour ≤ 23, minute ≤ 59,
second ≤ 59), followed by an optional UTC offset. -/
def timeBody (cs : List Char) : Bool :=
  match parseFixedNat 2 0 cs with
  | none => false
  | some (hh, rest) =>
    if 24 ≤ hh then false else
    match rest with
    | ':' :: r =>
      match parseFixedNat 2 0 r with
      | none => false
      | some (mm, rest2) =>
        if 60 ≤ mm then false else
        match rest2 with
        | ':' :: r2 =>
          match parseFixedNat 2 0 r2 with
          | none => false
          | some (ss, rest3) =>
            if 60 ≤ ss then false else
            match rest3 with
            | '.' :: r3 =>
              if fracOk (r3.takeWhile isDigit) then parseOffset (r3.dropWhile isDigit)
              else false
            | _ => parseOffset rest3
        | _ => parseOffset rest2
    | _ => parseOffset rest

/-- Model of Python `datetime.fromisoformat`, used by the source only for its
success/failure (the parsed value is discarded): `true` iff the string is a
valid `YYYY-MM-DD`, optionally followed by a one-character separator and a
time-of-day with optional UTC offset.  Calendar validity (month/day ranges,
leap years) and field ranges are enforced as CPython does. -/
def fromisoformat (s : String) : Bool :=
  match parseFixedNat 4 0 s.toList with
  | none => false
  | some (y, rest) =>
    if y = 0 then false else
    match rest with
    | '-' :: r =>
      match parseFixedNat 2 0 r with
      | none => false
      | some (mo, rest2) =>
        if mo = 0 ∨ 13 ≤ mo then false else
        match rest2 with
        | '-' :: r2 =>
          match parseFixedNat 2 0 r2 with
          | none => false
          | some (d, rest3) =>
            if d = 0 ∨ daysInMonth y mo < d then false else
            match rest3 with
            | [] => true
            | _sep :: r3 => timeBody r3
        | _ => false
    | _ => false

/-- An HTTP response: its status code and its body, already run through the
JSON decoder (`none` when the body is not valid JSON). -/
structure HttpResponse where
  status : Nat
  jsonBody : Option Json

/-- Outcome of one HTTP GET: a response, or a transport-level failure
(`httpx.RequestError`). -/
inductive NetOutcome where
  | response (r : HttpResponse) : NetOutcome
  | failure (msg : String) : NetOutcome

/-- The exceptions `fetch_aws_news` can raise: Python `ValueError` (raised by
the date validation), `httpx.HTTPStatusError` (from `raise_for_status`),
`httpx.RequestError` (network failure), and a JSON decode error from
`response.json()`. -/
inductive FetchError where
  | valueError (msg : String) : FetchError
  | httpStatusError (status : Nat) : FetchError
  | requestError (msg : String) : FetchError
  | jsonDecodeError : FetchError
deriving DecidableEq

/-- The spec's error taxonomy groups every error other than the date
`ValueError` under `UpstreamError`. -/
def FetchError.isUpstream : FetchError → Bool
  | .valueError _ => false
  | _ => true

/-- Model of Python `str(e)` on the exceptions above.  For the date
`ValueError` this is exactly the message the source passes to the
constructor; for the library exceptions the exact wording is the library's
and is abstracted here. -/
def FetchError.message : FetchError → String
  | .valueError m => m
  | .httpStatusError st => "HTTP status error " ++ toString st
  | .requestError m => m
  | .jsonDecodeError => "JSON decode error"

/-- What a tool front end hands back to the protocol caller: the JSON
envelope on success (serialisation by `json.dumps` is abstracted — the
output carries the dict as a `Json` value), or the error text built in the
`except` branch. -/
inductive ToolOutput where
  | success (envelope : Json) : ToolOutput
  | errorText (msg : String) : ToolOutput

namespace AwsNewsServer

/-- `aws_news_server.py` line 33. -/
def base_url : String := "https://api.aws-news.com/articles"

/-- `aws_news_server.py` lines 36–56: the query-parameter dict built by
`fetch_aws_news`, in insertion order, or the `ValueError` raised when a
nonempty `since_date` fails `datetime.fromisoformat` after replacing `'Z'`
with `"+00:00"`.  An empty `since_date` is falsy in Python, so the `since`
branch is skipped for it just as for `None`. -/
def buildParams (topic : String) (news_type : String) (include_regional_expansions : Bool)
    (limit : Int) (since_date : Option String) : Except FetchError (List (String × PyVal)) :=
  let params : List (String × PyVal) :=
    [("page_size", PyVal.int limit),
     ("hide_regional_expansions", PyVal.bool (!include_regional_expansions)),
     ("search", PyVal.str topic)]
  let params :=
    if pyLower news_type = "news" then params ++ [("article_type", PyVal.str "news")]
    else if pyLower news_type = "blogs" ∨ pyLower news_type = "blog" then
      params ++ [("article_type", PyVal.str "blog")]
    else params
  match since_date with
  | none => .ok params
  | some s =>
    if s = "" then .ok params
    else if fromisoformat (pyReplaceChar s 'Z' "+00:00") then
      .ok (params ++ [("since", PyVal.str s)])
    else
      .error (.valueError
        "Invalid date format. Please use ISO 8601 format (e.g., 2025-05-01T00:00:00Z)")

/-- `aws_news_server.py` lines 13–68, `fetch_aws_news`: build the parameters
(possibly raising), assemble the URL, perform one GET through the oracle
`net`, raise for a non-2xx status, decode the JSON body.  The second
component is the list of URLs actually requested. -/
def fetch_aws_news (topic : String) (news_type : String) (include_regional_expansions : Bool)
    (limit : Int) (since_date : Option String) (net : String → NetOutcome) :
    Except FetchError Json × List String :=
  match buildParams topic news_type include_regional_expansions limit since_date with
  | .error e => (.error e, [])
  | .ok ps =>
    let url := base_url ++ "?" ++ urlencode ps
    match net url with
    | .failure msg => (.error (.requestError msg), [url])
    | .response r =>
      if 200 ≤ r.status ∧ r.status < 300 then
        match r.jsonBody with
        | some j => (.ok j, [url])
        | none => (.error .jsonDecodeError, [url])
      else (.error (.httpStatusError r.status), [url])

/-- The `arguments` dict of a tool call, restricted to the keys `call_tool`
reads (`none` models an absent key). -/
structure Arguments where
  topic : Option String
  news_type : Option String
  include_regional_expansions : Option Bool
  number_of_results : Option Int
  since_date : Option String

/-- Result of `call_tool`: an uncaught `ValueError` (unknown tool or missing
`topic`), or the single `TextContent` produced by the handler. -/
inductive CallToolResult where
  | raised (msg : String) : CallToolResult
  | content (out : ToolOutput) : CallToolResult

/-- `aws_news_server.py` lines 83–120, `call_tool`: check the tool name and
the presence of `topic`, default the optional arguments, call
`fetch_aws_news`, and wrap the result dict — or render any exception as
`"Error fetching AWS news: " ++ str(e)`.  The second component is the list
of URLs requested. -/
def call_tool (name : String) (arguments : Arguments) (net : String → NetOutcome) :
    CallToolResult × List String :=
  if name ≠ "get_aws_news" then (.raised ("Unknown tool: " ++ name), [])
  else match arguments.topic with
  | none => (.raised "Missing required argument 'topic'", [])
  | some topic =>
    let news_type := arguments.news_type.getD "all"
    let include_regional_expansions := arguments.include_regional_expansions.getD false
    let limit := arguments.number_of_results.getD 40
    match fetch_aws_news topic news_type include_regional_expansions limit
        arguments.since_date net with
    | (.ok news_articles, log) =>
      (.content (.success (Json.obj
        [("topic", Json.str topic),
         ("news_type", Json.str news_type),
         ("include_regional_expansions", Json.bool include_regional_expansions),
         ("articles", news_articles)])), log)
    | (.error e, log) =>
      (.content (.errorText ("Error fetching AWS news: " ++ e.message)), log)

end AwsNewsServer

namespace MainPy

/-- `main.py` line 31. -/
def base_url : String := "https://api.aws-news.com/articles"

/-- `main.py` lines 34–54: the query-parameter dict built by the copy of
`fetch_aws_news` in `main.py`, in insertion order, or the raised
`ValueError`.  Textually the same logic as in `aws_news_server.py`. -/
def buildParams (topic : String) (news_type : String) (include_regional_expansions : Bool)
    (limit : Int) (since_date : Option String) : Except FetchError (List (String × PyVal)) :=
  let params : List (String × PyVal) :=
    [("page_size", PyVal.int limit),
     ("hide_regional_expansions", PyVal.bool (!include_regional_expansions)),
     ("search", PyVal.str topic)]
  let params :=
    if pyLower news_type = "news" then params ++ [("article_type", PyVal.str "news")]
    else if pyLower news_type = "blogs" ∨ pyLower news_type = "blog" then
      params ++ [("article_type", PyVal.str "blog")]
    else params
  match since_date with
  | none => .ok params
  | some s =>
    if s = "" then .ok params
    else if fromisoformat (pyReplaceChar s 'Z' "+00:00") then
      .ok (params ++ [("since", PyVal.str s)])
    else
      .error (.valueError
        "Invalid date format. Please use ISO 8601 format (e.g., 2025-05-01T00:00:00Z)")

/-- `main.py` lines 11–66, `fetch_aws_news`: the copy of the core operation
living in `main.py`.  Same contract as `AwsNewsServer.fetch_aws_news`. -/
def fetch_aws_news (topic : String) (news_type : String) (include_regional_expansions : Bool)
    (limit : Int) (since_date : Option String) (net : String → NetOutcome) :
    Except FetchError Json × List String :=
  match buildParams topic news_type include_regional_expansions limit since_date with
  | .error e => (.error e, [])
  | .ok ps =>
    let url := base_url ++ "?" ++ urlencode ps
    match net url with
    | .failure msg => (.error (.requestError msg), [url])
    | .response r =>
      if 200 ≤ r.status ∧ r.status < 300 then
        match r.jsonBody with
        | some j => (.ok j, [url])
        | none => (.error .jsonDecodeError, [url])
      else (.error (.httpStatusError r.status), [url])

/-- `main.py` lines 96–135, `get_aws_news`: call `fetch_aws_news`, wrap the
articles in the result dict on success, or render the caught exception as
`"Error fetching AWS news: " ++ str(e)`.  The second component is the list
of URLs requested. -/
def get_aws_news (topic : String) (news_type : String) (include_regional_expansions : Bool)
    (number_of_results : Int) (since_date : Option String) (net : String → NetOutcome) :
    ToolOutput × List String :=
  match fetch_aws_news topic news_type include_regional_expansions number_of_results
      since_date net with
  | (.ok news_articles, log) =>
    (.success (Json.obj
      [("topic", Json.str topic),
       ("news_type", Json.str news_type),
       ("include_regional_expansions", Json.bool include_regional_expansions),
       ("articles", news_articles)]), log)
  | (.error e, log) =>
    (.errorText ("Error fetching AWS news: " ++ e.message), log)

end MainPy

/-!
## Claims
-/

/-- C1: for every input whose `since_date` is a nonempty string that does not
parse as ISO-8601 after replacing `'Z'` with `"+00:00"`, `fetch_aws_news`
raises a `ValueError` whose message is exactly
`"Invalid date format. Please use ISO 8601 format (e.g., 2025-05-01T00:00:00Z)"`,
and issues zero network calls. -/
theorem c1_malformed_since_validation_error
    (topic news_type : String) (include_regional_expansions : Bool) (limit : Int)
    (s : String) (net : String → NetOutcome)
    (hne : s ≠ "")
    (hbad : fromisoformat (pyReplaceChar s 'Z' "+00:00") = false) :
    AwsNewsServer.fetch_aws_news topic news_type include_regional_expansions limit (some s) net
      = (Except.error (FetchError.valueError
          "Invalid date format. Please use ISO 8601 format (e.g., 2025-05-01T00:00:00Z)"),
         []) := by
  unfold AwsNewsServer.fetch_aws_news AwsNewsServer.buildParams
  simp [hne, hbad]

/-- Witness for C1 at `since_date = "not-a-date"`. -/
theorem c1_witness :
    AwsNewsServer.fetch_aws_news "s3" "all" false 40 (some "not-a-date")
        (fun _ => NetOutcome.failure "unreachable")
      = (Except.error (FetchError.valueError
          "Invalid date format. Please use ISO 8601 format (e.g., 2025-05-01T00:00:00Z)"),
         []) :=
  c1_malformed_since_validation_error "s3" "all" false 40 "not-a-date"
    (fun _ => NetOutcome.failure "unreachable") (by decide) (by decide)

/-- Helper: whenever building the parameters succeeds, `fetch_aws_news`
issues exactly one request, and its URL is the base URL with the encoded
parameters. -/
theorem AwsNewsServer.fetch_requests_of_ok
    (topic news_type : String) (include_regional_expansions : Bool) (limit : Int)
    (since_date : Option String) (ps : List (String × PyVal)) (net : String → NetOutcome)
    (hb : AwsNewsServer.buildParams topic news_type include_regional_expansions limit since_date
        = Except.ok ps) :
    (AwsNewsServer.fetch_aws_news topic news_type include_regional_expansions limit
        since_date net).2
      = [AwsNewsServer.base_url ++ "?" ++ urlencode ps] := by
  unfold AwsNewsServer.fetch_aws_news
  rw [hb]
  dsimp only
  cases hnet : net (AwsNewsServer.base_url ++ "?" ++ urlencode ps) with
  | failure m => rfl
  | response r =>
    by_cases hst : 200 ≤ r.status ∧ r.status < 300
    · cases hj : r.jsonBody <;> simp [hst, hj]
    · simp [hst]

/-- C2: for every `since_date` that validates (parses as ISO-8601 after the
`'Z'` → `"+00:00"` rewrite), `fetch_aws_news`'s validation succeeds, the
original string — not the rewritten form — is the value of the `since`
query parameter, and the single request URL is assembled from exactly those
parameters. -/
theorem c2_valid_since_forwarded_unchanged
    (topic news_type : String) (include_regional_expansions : Bool) (limit : Int)
    (s : String) (net : String → NetOutcome)
    (hok : fromisoformat (pyReplaceChar s 'Z' "+00:00") = true) :
    ∃ ps, AwsNewsServer.buildParams topic news_type include_regional_expansions limit (some s)
        = Except.ok ps
      ∧ qlookup "since" ps = some (PyVal.str s)
      ∧ (AwsNewsServer.fetch_aws_news topic news_type include_regional_expansions limit
          (some s) net).2
        = [AwsNewsServer.base_url ++ "?" ++ urlencode ps] := by
  have hne : s ≠ "" := by
    intro h
    rw [h] at hok
    exact absurd hok (by decide)
  by_cases h1 : pyLower news_type = "news"
  · have hb : AwsNewsServer.buildParams topic news_type include_regional_expansions limit
        (some s)
        = Except.ok [("page_size", PyVal.int limit),
            ("hide_regional_expansions", PyVal.bool (!include_regional_expansions)),
            ("search", PyVal.str topic), ("article_type", PyVal.str "news"),
            ("since", PyVal.str s)] := by
      unfold AwsNewsServer.buildParams
      simp [h1, hne, hok]
    exact ⟨_, hb, by simp [qlookup],
      AwsNewsServer.fetch_requests_of_ok _ _ _ _ _ _ _ hb⟩
  · by_cases h2 : pyLower news_type = "blogs" ∨ pyLower news_type = "blog"
    · have hb : AwsNewsServer.buildParams topic news_type include_regional_expansions limit
          (some s)
          = Except.ok [("page_size", PyVal.int limit),
              ("hide_regional_expansions", PyVal.bool (!include_regional_expansions)),
              ("search", PyVal.str topic), ("article_type", PyVal.str "blog"),
              ("since", PyVal.str s)] := by
        unfold AwsNewsServer.buildParams
        simp [h1, h2, hne, hok]
      exact ⟨_, hb, by simp [qlookup],
        AwsNewsServer.fetch_requests_of_ok _ _ _ _ _ _ _ hb⟩
    · have hb : AwsNewsServer.buildParams topic news_type include_regional_expansions limit
          (some s)
          = Except.ok [("page_size", PyVal.int limit),
              ("hide_regional_expansions", PyVal.bool (!include_regional_expansions)),
              ("search", PyVal.str topic), ("since", PyVal.str s)] := by
        unfold AwsNewsServer.buildParams
        simp [h1, h2, hne, hok]
      exact ⟨_, hb, by simp [qlookup],
        AwsNewsServer.fetch_requests_of_ok _ _ _ _ _ _ _ hb⟩

/-- Helper: `qlookup` over an append takes the first hit. -/
theorem qlookup_append (k : String) (xs ys : List (String × PyVal)) :
    qlookup k (xs ++ ys) = (qlookup k xs).or (qlookup k ys) := by
  induction xs with
  | nil => simp [qlookup]
  | cons p rest ih =>
    by_cases h : k = p.1
    · simp [qlookup, h]
    · simp [qlookup, h, ih]

/-- Helper: the article-type fragment appended by `buildParams`, as a
stand-alone list (used only to state the shape lemma below). -/
def articleTypePart (news_type : String) : List (String × PyVal) :=
  if pyLower news_type = "news" then [("article_type", PyVal.str "news")]
  else if pyLower news_type = "blogs" ∨ pyLower news_type = "blog" then
    [("article_type", PyVal.str "blog")]
  else []

/-- Helper: every run of `AwsNewsServer.buildParams` either returns the three
base parameters followed by the article-type fragment and an optional
`since` entry, or raises the date `ValueError`. -/
theorem AwsNewsServer.buildParams_cases
    (topic news_type : String) (include_regional_expansions : Bool) (limit : Int)
    (since_date : Option String) :
    (∃ since_part,
      (since_part = [] ∨ ∃ s, since_date = some s ∧ since_part = [("since", PyVal.str s)])
      ∧ AwsNewsServer.buildParams topic news_type include_regional_expansions limit since_date
          = Except.ok
            ([("page_size", PyVal.int limit),
              ("hide_regional_expansions", PyVal.bool (!include_regional_expansions)),
              ("search", PyVal.str topic)]
             ++ articleTypePart news_type ++ since_part))
    ∨ AwsNewsServer.buildParams topic news_type include_regional_expansions limit since_date
        = Except.error (FetchError.valueError
            "Invalid date format. Please use ISO 8601 format (e.g., 2025-05-01T00:00:00Z)") := by
  have hshape :
      (if pyLower news_type = "news" then
        [("page_size", PyVal.int limit),
         ("hide_regional_expansions", PyVal.bool (!include_regional_expansions)),
         ("search", PyVal.str topic)] ++ [("article_type", PyVal.str "news")]
       else if pyLower news_type = "blogs" ∨ pyLower news_type = "blog" then
        [("page_size", PyVal.int limit),
         ("hide_regional_expansions", PyVal.bool (!include_regional_expansions)),
         ("search", PyVal.str topic)] ++ [("article_type", PyVal.str "blog")]
       else
        [("page_size", PyVal.int limit),
         ("hide_regional_expansions", PyVal.bool (!include_regional_expansions)),
         ("search", PyVal.str topic)])
      = [("page_size", PyVal.int limit),
         ("hide_regional_expansions", PyVal.bool (!include_regional_expansions)),
         ("search", PyVal.str topic)] ++ articleTypePart news_type := by
    unfold articleTypePart
    split
    · rfl
    · split
      · rfl
      · simp
  cases since_date with
  | none =>
    left
    refine ⟨[], Or.inl rfl, ?_⟩
    unfold AwsNewsServer.buildParams
    dsimp only
    rw [hshape]
    simp
  | some s =>
    by_cases hs : s = ""
    · left
      refine ⟨[], Or.inl rfl, ?_⟩
      unfold AwsNewsServer.buildParams
      dsimp only
      rw [hshape]
      simp [hs]
    · by_cases hv : fromisoformat (pyReplaceChar s 'Z' "+00:00") = true
      · left
        refine ⟨[("since", PyVal.str s)], Or.inr ⟨s, rfl, rfl⟩, ?_⟩
        unfold AwsNewsServer.buildParams
        dsimp only
        rw [hshape]
        simp [hs, hv, List.append_assoc]
      · right
        unfold AwsNewsServer.buildParams
        dsimp only
        rw [hshape]
        simp [hs, hv]

/-- C3: for every `news_type`, the assembled query carries
`article_type = "news"` exactly when `news_type` lower-cases to `"news"`,
carries `article_type = "blog"` exactly when it lower-cases to `"blogs"` or
`"blog"`, and has no `article_type` parameter for any other value
(including `"all"`). -/
theorem c3_article_type_filter
    (topic news_type : String) (include_regional_expansions : Bool) (limit : Int)
    (since_date : Option String) (ps : List (String × PyVal))
    (h : AwsNewsServer.buildParams topic news_type include_regional_expansions limit since_date
        = Except.ok ps) :
    qlookup "article_type" ps
      = if pyLower news_type = "news" then some (PyVal.str "news")
        else if pyLower news_type = "blogs" ∨ pyLower news_type = "blog" then
          some (PyVal.str "blog")
        else none := by
  rcases AwsNewsServer.buildParams_cases topic news_type include_regional_expansions limit
      since_date with ⟨since_part, hsp, hok⟩ | herr
  · rw [h] at hok
    cases hok
    have hsince : qlookup "article_type" since_part = none := by
      rcases hsp with rfl | ⟨s, _, rfl⟩
      · rfl
      · rfl
    by_cases h1 : pyLower news_type = "news"
    · simp [articleTypePart, h1, qlookup_append, qlookup]
    · by_cases h2 : pyLower news_type = "blogs" ∨ pyLower news_type = "blog"
      · simp [articleTypePart, h1, h2, qlookup_append, qlookup]
      · simp [articleTypePart, h1, h2, qlookup_append, qlookup, hsince]
  · rw [h] at herr
    exact absurd herr (by simp)

/-- Witness for C3 at `news_type = "Blogs"` (mixed case). -/
theorem c3_witness :
    qlookup "article_type"
        [("page_size", PyVal.int 40), ("hide_regional_expansions", PyVal.bool true),
         ("search", PyVal.str "ec2"), ("article_type", PyVal.str "blog")]
      = if pyLower "Blogs" = "news" then some (PyVal.str "news")
        else if pyLower "Blogs" = "blogs" ∨ pyLower "Blogs" = "blog" then
          some (PyVal.str "blog")
        else none :=
  c3_article_type_filter "ec2" "Blogs" false 40 none _ (by rfl)

/-- C4: for every input on which the parameters are assembled, the
`hide_regional_expansions` query parameter is the logical negation of the
`include_regional_expansions` input. -/
theorem c4_hide_regional_expansions_negation
    (topic news_type : String) (include_regional_expansions : Bool) (limit : Int)
    (since_date : Option String) (ps : List (String × PyVal))
    (h : AwsNewsServer.buildParams topic news_type include_regional_expansions limit since_date
        = Except.ok ps) :
    qlookup "hide_regional_expansions" ps
      = some (PyVal.bool (!include_regional_expansions)) := by
  rcases AwsNewsServer.buildParams_cases topic news_type include_regional_expansions limit
      since_date with ⟨since_part, _, hok⟩ | herr
  · rw [h] at hok
    cases hok
    simp [qlookup_append, qlookup]
  · rw [h] at herr
    exact absurd herr (by simp)

/-- Witness for C4 at `include_regional_expansions = true`. -/
theorem c4_witness :
    qlookup "hide_regional_expansions"
        [("page_size", PyVal.int 40), ("hide_regional_expansions", PyVal.bool false),
         ("search", PyVal.str "dynamodb")]
      = some (PyVal.bool (!true)) :=
  c4_hide_regional_expansions_negation "dynamodb" "all" true 40 none _ (by rfl)

/-- C5: the `limit` input is forwarded verbatim as the `page_size` query
parameter, and on a successful upstream response the article sequence is
returned exactly as received — no client-side truncation or expansion. -/
theorem c5_page_size_and_no_reslicing
    (topic news_type : String) (include_regional_expansions : Bool) (limit : Int)
    (since_date : Option String) (ps : List (String × PyVal)) (net : String → NetOutcome)
    (st : Nat) (j : Json)
    (hb : AwsNewsServer.buildParams topic news_type include_regional_expansions limit since_date
        = Except.ok ps)
    (hnet : net (AwsNewsServer.base_url ++ "?" ++ urlencode ps)
        = NetOutcome.response ⟨st, some j⟩)
    (hst : 200 ≤ st ∧ st < 300) :
    qlookup "page_size" ps = some (PyVal.int limit)
      ∧ AwsNewsServer.fetch_aws_news topic news_type include_regional_expansions limit
          since_date net
        = (Except.ok j, [AwsNewsServer.base_url ++ "?" ++ urlencode ps]) := by
  constructor
  · rcases AwsNewsServer.buildParams_cases topic news_type include_regional_expansions limit
        since_date with ⟨since_part, _, hok⟩ | herr
    · rw [hb] at hok
      cases hok
      simp [qlookup_append, qlookup]
    · rw [hb] at herr
      exact absurd herr (by simp)
  · unfold AwsNewsServer.fetch_aws_news
    rw [hb]
    dsimp only
    rw [hnet]
    simp [hst]

/-- Witness for C5: `limit = 2` while the upstream returns three articles,
which come back untruncated. -/
theorem c5_witness :
    qlookup "page_size"
        [("page_size", PyVal.int 2), ("hide_regional_expansions", PyVal.bool true),
         ("search", PyVal.str "s3")]
      = some (PyVal.int 2)
      ∧ AwsNewsServer.fetch_aws_news "s3" "all" false 2 none
          (fun _ => NetOutcome.response ⟨200, some (Json.arr [Json.num 1, Json.num 2, Json.num 3])⟩)
        = (Except.ok (Json.arr [Json.num 1, Json.num 2, Json.num 3]),
           [AwsNewsServer.base_url ++ "?"
             ++ urlencode [("page_size", PyVal.int 2),
                 ("hide_regional_expansions", PyVal.bool true), ("search", PyVal.str "s3")]]) :=
  c5_page_size_and_no_reslicing "s3" "all" false 2 none _
    (fun _ => NetOutcome.response ⟨200, some (Json.arr [Json.num 1, Json.num 2, Json.num 3])⟩)
    200 (Json.arr [Json.num 1, Json.num 2, Json.num 3]) (by rfl) rfl (by decide)

/-- Witness for C2 at `since_date = "2025-01-01T00:00:00Z"` (trailing `Z`). -/
theorem c2_witness :
    ∃ ps, AwsNewsServer.buildParams "lambda" "all" false 40 (some "2025-01-01T00:00:00Z")
        = Except.ok ps
      ∧ qlookup "since" ps = some (PyVal.str "2025-01-01T00:00:00Z")
      ∧ (AwsNewsServer.fetch_aws_news "lambda" "all" false 40 (some "2025-01-01T00:00:00Z")
          (fun _ => NetOutcome.response ⟨200, some (Json.arr [])⟩)).2
        = [AwsNewsServer.base_url ++ "?" ++ urlencode ps] :=
  c2_valid_since_forwarded_unchanged "lambda" "all" false 40 "2025-01-01T00:00:00Z"
    (fun _ => NetOutcome.response ⟨200, some (Json.arr [])⟩) (by decide)

/-- Helper: when the core fetch succeeds, `get_aws_news` wraps the articles
in the echo envelope. -/
theorem MainPy.get_fst_of_ok
    (topic news_type : String) (include_regional_expansions : Bool)
    (number_of_results : Int) (since_date : Option String) (net : String → NetOutcome)
    (j : Json)
    (h : (MainPy.fetch_aws_news topic news_type include_regional_expansions number_of_results
        since_date net).1 = Except.ok j) :
    (MainPy.get_aws_news topic news_type include_regional_expansions number_of_results
        since_date net).1
      = ToolOutput.success (Json.obj
          [("topic", Json.str topic), ("news_type", Json.str news_type),
           ("include_regional_expansions", Json.bool include_regional_expansions),
           ("articles", j)]) := by
  unfold MainPy.get_aws_news
  rcases hp : MainPy.fetch_aws_news topic news_type include_regional_expansions
      number_of_results since_date net with ⟨r, log⟩
  rw [hp] at h
  cases r with
  | ok a =>
    simp only [Except.ok.injEq] at h
    subst h
    rfl
  | error e => simp at h

/-- Helper: when the core fetch raises, `get_aws_news` renders the prefixed
error text. -/
theorem MainPy.get_fst_of_error
    (topic news_type : String) (include_regional_expansions : Bool)
    (number_of_results : Int) (since_date : Option String) (net : String → NetOutcome)
    (e : FetchError)
    (h : (MainPy.fetch_aws_news topic news_type include_regional_expansions number_of_results
        since_date net).1 = Except.error e) :
    (MainPy.get_aws_news topic news_type include_regional_expansions number_of_results
        since_date net).1
      = ToolOutput.errorText ("Error fetching AWS news: " ++ e.message) := by
  unfold MainPy.get_aws_news
  rcases hp : MainPy.fetch_aws_news topic news_type include_regional_expansions
      number_of_results since_date net with ⟨r, log⟩
  rw [hp] at h
  cases r with
  | ok a => simp at h
  | error e2 =>
    simp only [Except.error.injEq] at h
    subst h
    rfl

/-- C6: whenever the upstream call succeeds, the result envelope holds the
upstream JSON body verbatim in `articles` next to the echoed `topic`,
`news_type` and `include_regional_expansions` inputs. -/
theorem c6_success_envelope_roundtrip
    (topic news_type : String) (include_regional_expansions : Bool)
    (number_of_results : Int) (since_date : Option String) (net : String → NetOutcome)
    (j : Json)
    (h : (MainPy.fetch_aws_news topic news_type include_regional_expansions number_of_results
        since_date net).1 = Except.ok j) :
    (MainPy.get_aws_news topic news_type include_regional_expansions number_of_results
        since_date net).1
      = ToolOutput.success (Json.obj
          [("topic", Json.str topic), ("news_type", Json.str news_type),
           ("include_regional_expansions", Json.bool include_regional_expansions),
           ("articles", j)]) :=
  MainPy.get_fst_of_ok topic news_type include_regional_expansions number_of_results
    since_date net j h

/-- Witness for C6: the mocked round trip of the claim —
the upstream returns the one-article array and `get_aws_news "s3"` with the
default arguments echoes `topic = "s3"`, `news_type = "all"`,
`include_regional_expansions = false` around it. -/
theorem c6_witness :
    (MainPy.fetch_aws_news "s3" "all" false 40 none
        (fun _ => NetOutcome.response
          ⟨200, some (Json.arr [Json.obj [("id", Json.str "1"), ("title", Json.str "X")]])⟩)).1
      = Except.ok (Json.arr [Json.obj [("id", Json.str "1"), ("title", Json.str "X")]])
      ∧ (MainPy.get_aws_news "s3" "all" false 40 none
          (fun _ => NetOutcome.response
            ⟨200, some (Json.arr [Json.obj [("id", Json.str "1"), ("title", Json.str "X")]])⟩)).1
        = ToolOutput.success (Json.obj
            [("topic", Json.str "s3"), ("news_type", Json.str "all"),
             ("include_regional_expansions", Json.bool false),
             ("articles", Json.arr [Json.obj [("id", Json.str "1"), ("title", Json.str "X")]])]) :=
  ⟨by rfl,
   c6_success_envelope_roundtrip "s3" "all" false 40 none
     (fun _ => NetOutcome.response
       ⟨200, some (Json.arr [Json.obj [("id", Json.str "1"), ("title", Json.str "X")]])⟩)
     (Json.arr [Json.obj [("id", Json.str "1"), ("title", Json.str "X")]]) (by rfl)⟩

/-- A failing upstream interaction: a transport failure, a non-2xx status, or
a body that does not decode as JSON. -/
def upstreamFails : NetOutcome → Prop
  | .failure _ => True
  | .response r => ¬(200 ≤ r.status ∧ r.status < 300) ∨ r.jsonBody = none

/-- Helper: a failing upstream interaction makes the fetch raise one of the
upstream-classified errors. -/
theorem MainPy.fetch_error_of_upstream
    (topic news_type : String) (include_regional_expansions : Bool)
    (number_of_results : Int) (since_date : Option String)
    (ps : List (String × PyVal)) (net : String → NetOutcome)
    (hb : MainPy.buildParams topic news_type include_regional_expansions number_of_results
        since_date = Except.ok ps)
    (hbad : upstreamFails (net (MainPy.base_url ++ "?" ++ urlencode ps))) :
    ∃ e, (MainPy.fetch_aws_news topic news_type include_regional_expansions number_of_results
        since_date net).1 = Except.error e
      ∧ FetchError.isUpstream e = true := by
  unfold MainPy.fetch_aws_news
  rw [hb]
  dsimp only
  cases hnet : net (MainPy.base_url ++ "?" ++ urlencode ps) with
  | failure m => exact ⟨.requestError m, rfl, rfl⟩
  | response r =>
    rw [hnet] at hbad
    simp only [upstreamFails] at hbad
    by_cases hst : 200 ≤ r.status ∧ r.status < 300
    · rcases hbad with hbad | hjb
      · exact absurd hst hbad
      · refine ⟨.jsonDecodeError, ?_, rfl⟩
        simp [hst, hjb]
    · refine ⟨.httpStatusError r.status, ?_, rfl⟩
      simp [hst]

/-- C7: when the upstream responds with a non-success status, the transport
fails, or the body fails JSON decoding, the fetch raises an
upstream-classified error, the caller receives only the prefixed error text,
and no (even partial) envelope is ever produced. -/
theorem c7_upstream_failure_yields_error_only
    (topic news_type : String) (include_regional_expansions : Bool)
    (number_of_results : Int) (since_date : Option String)
    (ps : List (String × PyVal)) (net : String → NetOutcome)
    (hb : MainPy.buildParams topic news_type include_regional_expansions number_of_results
        since_date = Except.ok ps)
    (hbad : upstreamFails (net (MainPy.base_url ++ "?" ++ urlencode ps))) :
    ∃ e, (MainPy.fetch_aws_news topic news_type include_regional_expansions number_of_results
        since_date net).1 = Except.error e
      ∧ FetchError.isUpstream e = true
      ∧ (MainPy.get_aws_news topic news_type include_regional_expansions number_of_results
          since_date net).1
        = ToolOutput.errorText ("Error fetching AWS news: " ++ e.message)
      ∧ ∀ env, (MainPy.get_aws_news topic news_type include_regional_expansions
          number_of_results since_date net).1 ≠ ToolOutput.success env := by
  obtain ⟨e, he, hup⟩ := MainPy.fetch_error_of_upstream topic news_type
    include_regional_expansions number_of_results since_date ps net hb hbad
  have hg := MainPy.get_fst_of_error topic news_type include_regional_expansions
    number_of_results since_date net e he
  refine ⟨e, he, hup, hg, ?_⟩
  intro env hc
  rw [hg] at hc
  cases hc

/-- Witness for C7: upstream HTTP 500. -/
theorem c7_witness :
    ∃ e, (MainPy.fetch_aws_news "s3" "all" false 40 none
        (fun _ => NetOutcome.response ⟨500, some (Json.arr [])⟩)).1 = Except.error e
      ∧ FetchError.isUpstream e = true
      ∧ (MainPy.get_aws_news "s3" "all" false 40 none
          (fun _ => NetOutcome.response ⟨500, some (Json.arr [])⟩)).1
        = ToolOutput.errorText ("Error fetching AWS news: " ++ e.message)
      ∧ ∀ env, (MainPy.get_aws_news "s3" "all" false 40 none
          (fun _ => NetOutcome.response ⟨500, some (Json.arr [])⟩)).1
        ≠ ToolOutput.success env :=
  c7_upstream_failure_yields_error_only "s3" "all" false 40 none
    [("page_size", PyVal.int 40), ("hide_regional_expansions", PyVal.bool true),
     ("search", PyVal.str "s3")]
    (fun _ => NetOutcome.response ⟨500, some (Json.arr [])⟩)
    (by rfl) (Or.inl (by decide))

/-- C8 counterexample: the system does issue a request with an empty topic.
A `call_tool` invocation whose `arguments` carry `topic = ""` passes the
presence check, reaches the HTTP GET (the request log is nonempty), and the
assembled `search` query parameter is the empty string — refuting the claim
that a request with an empty topic is never issued. -/
theorem c8_counterexample :
    (AwsNewsServer.call_tool "get_aws_news"
        ⟨some "", none, none, none, none⟩
        (fun _ => NetOutcome.response ⟨200, some (Json.arr [])⟩)).2
      ≠ []
      ∧ AwsNewsServer.buildParams "" "all" false 40 none
        = Except.ok [("page_size", PyVal.int 40),
            ("hide_regional_expansions", PyVal.bool true), ("search", PyVal.str "")]
      ∧ qlookup "search"
          [("page_size", PyVal.int 40),
           ("hide_regional_expansions", PyVal.bool true), ("search", PyVal.str "")]
        = some (PyVal.str "") := by
  refine ⟨?_, by rfl, by rfl⟩
  intro h
  have h2 : (AwsNewsServer.call_tool "get_aws_news"
      ⟨some "", none, none, none, none⟩
      (fun _ => NetOutcome.response ⟨200, some (Json.arr [])⟩)).2
      = [AwsNewsServer.base_url ++ "?"
          ++ urlencode [("page_size", PyVal.int 40),
              ("hide_regional_expansions", PyVal.bool true), ("search", PyVal.str "")]] := by
    rfl
  rw [h] at h2
  exact absurd h2.symm (by simp)

/-- C8, amended: the `search` query parameter is always present and always
equals the supplied topic — so it is non-empty exactly when the caller's
topic is; the component itself never rejects an empty topic. -/
theorem c8_amended_search_equals_topic
    (topic news_type : String) (include_regional_expansions : Bool) (limit : Int)
    (since_date : Option String) (ps : List (String × PyVal))
    (h : AwsNewsServer.buildParams topic news_type include_regional_expansions limit since_date
        = Except.ok ps) :
    qlookup "search" ps = some (PyVal.str topic)
      ∧ (topic ≠ "" → qlookup "search" ps ≠ some (PyVal.str "")) := by
  have hsearch : qlookup "search" ps = some (PyVal.str topic) := by
    rcases AwsNewsServer.buildParams_cases topic news_type include_regional_expansions limit
        since_date with ⟨since_part, _, hok⟩ | herr
    · rw [h] at hok
      cases hok
      simp [qlookup_append, qlookup]
    · rw [h] at herr
      exact absurd herr (by simp)
  refine ⟨hsearch, fun hne hc => ?_⟩
  rw [hsearch] at hc
  simp only [Option.some.injEq, PyVal.str.injEq] at hc
  exact hne hc

/-- Witness for the amended C8 at `topic = "s3"`. -/
theorem c8_amended_witness :
    qlookup "search"
        [("page_size", PyVal.int 40), ("hide_regional_expansions", PyVal.bool true),
         ("search", PyVal.str "s3")]
      = some (PyVal.str "s3")
      ∧ ("s3" ≠ "" → qlookup "search"
          [("page_size", PyVal.int 40), ("hide_regional_expansions", PyVal.bool true),
           ("search", PyVal.str "s3")]
        ≠ some (PyVal.str "")) :=
  c8_amended_search_equals_topic "s3" "all" false 40 none _ (by rfl)

/-- C9: an empty-string `since_date` is treated exactly like an absent one —
the call behaves identically to the `none` call, no `ValueError` is raised,
the `since` parameter is omitted, and the network request is still issued
(exactly one request). -/
theorem c9_empty_since_like_absent
    (topic news_type : String) (include_regional_expansions : Bool) (limit : Int)
    (net : String → NetOutcome) :
    AwsNewsServer.fetch_aws_news topic news_type include_regional_expansions limit
        (some "") net
      = AwsNewsServer.fetch_aws_news topic news_type include_regional_expansions limit none net
      ∧ (∃ ps, AwsNewsServer.buildParams topic news_type include_regional_expansions limit
            (some "") = Except.ok ps
          ∧ qlookup "since" ps = none)
      ∧ (AwsNewsServer.fetch_aws_news topic news_type include_regional_expansions limit
          (some "") net).2.length = 1
      ∧ ∀ m, (AwsNewsServer.fetch_aws_news topic news_type include_regional_expansions limit
          (some "") net).1 ≠ Except.error (FetchError.valueError m) := by
  have hbp : AwsNewsServer.buildParams topic news_type include_regional_expansions limit
      (some "")
      = AwsNewsServer.buildParams topic news_type include_regional_expansions limit none := by
    unfold AwsNewsServer.buildParams
    simp
  have hat : qlookup "since" (articleTypePart news_type) = none := by
    unfold articleTypePart
    split
    · rfl
    · split
      · rfl
      · rfl
  rcases AwsNewsServer.buildParams_cases topic news_type include_regional_expansions limit
      none with ⟨since_part, hsp, hok⟩ | herr
  case inr =>
    unfold AwsNewsServer.buildParams at herr
    simp at herr
  case inl =>
    have hsp0 : since_part = [] := by
      rcases hsp with rfl | ⟨s, hs, _⟩
      · rfl
      · cases hs
    subst hsp0
    have hok2 : AwsNewsServer.buildParams topic news_type include_regional_expansions limit
        (some "")
        = Except.ok
          ([("page_size", PyVal.int limit),
            ("hide_regional_expansions", PyVal.bool (!include_regional_expansions)),
            ("search", PyVal.str topic)]
           ++ articleTypePart news_type ++ []) := by
      rw [hbp]
      exact hok
    have hfetch : AwsNewsServer.fetch_aws_news topic news_type include_regional_expansions
        limit (some "") net
        = AwsNewsServer.fetch_aws_news topic news_type include_regional_expansions limit
          none net := by
      unfold AwsNewsServer.fetch_aws_news
      rw [hbp]
    refine ⟨hfetch, ⟨_, hok2, by simp [qlookup_append, qlookup, hat]⟩, ?_, ?_⟩
    · rw [AwsNewsServer.fetch_requests_of_ok topic news_type include_regional_expansions limit
        (some "") _ net hok2]
      rfl
    · intro m
      unfold AwsNewsServer.fetch_aws_news
      rw [hok2]
      dsimp only
      cases hnet : net (AwsNewsServer.base_url ++ "?"
          ++ urlencode ([("page_size", PyVal.int limit),
              ("hide_regional_expansions", PyVal.bool (!include_regional_expansions)),
              ("search", PyVal.str topic)] ++ articleTypePart news_type ++ [])) with
      | failure mm => simp
      | response r =>
        by_cases hst : 200 ≤ r.status ∧ r.status < 300
        · cases hj : r.jsonBody <;> simp [hst, hj]
        · simp [hst]

/-- C10: the two copies of the core operation — `fetch_aws_news` in
`main.py` and in `aws_news_server.py` — are extensionally equal: on every
input they produce the identical result (the same raised error or returned
body) and the identical request log (hence the identical URL). -/
theorem c10_duplicate_copies_extensionally_equal
    (topic news_type : String) (include_regional_expansions : Bool) (limit : Int)
    (since_date : Option String) (net : String → NetOutcome) :
    MainPy.fetch_aws_news topic news_type include_regional_expansions limit since_date net
      = AwsNewsServer.fetch_aws_news topic news_type include_regional_expansions limit
        since_date net := rfl
